import Mathlib

/-!
# The exported site configuration of `site/astro.config.mjs`

The source file is one `export default defineConfig({...})` statement whose
argument is a nested JavaScript literal (strings, booleans, arrays, objects and
one call of the imported theme function `starlight`).  The literal is embedded
as a value of `JsVal`, key for key and in source order; every property below is
stated over accessors that read that value the way JavaScript reads an object
literal.
-/

namespace AstroConfig

/-- Values of the JavaScript literal fragment the configuration file uses.
An object keeps its properties in source order; `call` is the application of
an imported function, which is kept uninterpreted. -/
inductive JsVal where
  | str (s : String)
  | bool (b : Bool)
  | arr (xs : List JsVal)
  | obj (fields : List (String × JsVal))
  | call (fn : String) (args : List JsVal)

namespace JsVal

/-- Property read `v[key]`: of an object literal that writes a key more than
once the last binding is the one kept; anything that is not an object has no
properties here. -/
def get? (v : JsVal) (key : String) : Option JsVal :=
  match v with
  | obj fields => (fields.reverse.find? (fun p => p.1 == key)).map Prod.snd
  | _ => none

/-- Own property names of an object, each once, in source order. -/
def keys : JsVal → List String
  | obj fields => (fields.map Prod.fst).eraseDups
  | _ => []

/-- The string a value is, if it is a string. -/
def asStr? : JsVal → Option String
  | str s => some s
  | _ => none

/-- The boolean a value is, if it is a boolean. -/
def asBool? : JsVal → Option Bool
  | bool b => some b
  | _ => none

/-- The elements of a value, if it is an array. -/
def asArr? : JsVal → Option (List JsVal)
  | arr xs => some xs
  | _ => none

/-- Whether a value is an object literal. -/
def isObj : JsVal → Bool
  | obj _ => true
  | _ => false

/-- The single argument of a call of the function named `name`. -/
def callArg? (name : String) : JsVal → Option JsVal
  | call fn [a] => if fn = name then some a else none
  | _ => none

/-- The name of the function a call value applies. -/
def callee? : JsVal → Option String
  | call fn _ => some fn
  | _ => none

/-- String-valued property `v[key]`. -/
def strField? (v : JsVal) (key : String) : Option String :=
  (v.get? key).bind asStr?

/-- Array-valued property `v[key]`. -/
def arrField? (v : JsVal) (key : String) : Option (List JsVal) :=
  (v.get? key).bind asArr?

mutual
/-- Every sidebar entry reachable from a value: an object is an entry and so is
every entry below one of its `items` properties; an array contributes the
entries of its elements, in order. -/
def groupsIn : JsVal → List JsVal
  | obj fields => obj fields :: groupsInFields fields
  | arr xs => groupsInList xs
  | _ => []
/-- Entries below the `items` properties of a property list. -/
def groupsInFields : List (String × JsVal) → List JsVal
  | [] => []
  | (k, v) :: rest => (if k = "items" then groupsIn v else []) ++ groupsInFields rest
/-- Entries of the elements of an array. -/
def groupsInList : List JsVal → List JsVal
  | [] => []
  | x :: rest => groupsIn x ++ groupsInList rest
end

end JsVal

open JsVal

/-- The imported theme function `starlight` from `@astrojs/starlight`, applied
to its options object. -/
def starlight (options : JsVal) : JsVal :=
  call "starlight" [options]

/-- The imported helper `defineConfig` from `astro/config`, applied to the
configuration object. -/
def defineConfig (config : JsVal) : JsVal :=
  call "defineConfig" [config]

/-- The default export of `site/astro.config.mjs`. -/
def exportDefault : JsVal :=
  defineConfig (obj [
    ("output", str "static"),
    ("site", str "https://g-structure.github.io"),
    ("base", str "/config"),
    ("integrations", arr [
      starlight (obj [
        ("title", str "WikiGen's Config Documentation"),
        ("description", str "Documentation for WikiGen's Nix configuration - modular multi-platform setup"),
        ("prerender", bool true),
        ("defaultLocale", str "root"),
        ("locales", obj [
          ("root", obj [
            ("label", str "English"),
            ("lang", str "en")])]),
        ("customCss", arr [str "./src/styles/custom.css"]),
        ("pagefind", bool true),
        ("sidebar", arr [
          obj [
            ("label", str "Getting Started"),
            ("autogenerate", obj [("directory", str "getting-started")])],
          obj [
            ("label", str "Guides"),
            ("items", arr [
              obj [
                ("label", str "Development"),
                ("autogenerate", obj [("directory", str "guides/development")])],
              obj [
                ("label", str "Deployment"),
                ("autogenerate", obj [("directory", str "guides/deployment")])],
              obj [
                ("label", str "Hardware Security"),
                ("autogenerate", obj [("directory", str "guides/hardware-security")])],
              obj [
                ("label", str "Secrets Management"),
                ("autogenerate", obj [("directory", str "guides/secrets-management")])]])],
          obj [
            ("label", str "Architecture"),
            ("autogenerate", obj [("directory", str "architecture")])],
          obj [
            ("label", str "Reference"),
            ("autogenerate", obj [("directory", str "reference")])]]),
        ("social", arr [
          obj [
            ("icon", str "github"),
            ("label", str "GitHub"),
            ("href", str "https://github.com/wikigen")]])])])])

/-! ## Reading the exported object -/

/-- The configuration object handed to `defineConfig`. -/
def config? : Option JsVal :=
  exportDefault.callArg? "defineConfig"

/-- Top-level property of the configuration object. -/
def configField? (key : String) : Option JsVal :=
  config?.bind (fun c => c.get? key)

/-- The `integrations` array. -/
def integrations? : Option (List JsVal) :=
  (configField? "integrations").bind asArr?

/-- The options object handed to the theme, read off the first integration. -/
def themeOptions? : Option JsVal :=
  integrations?.bind (fun l => l.head?.bind (callArg? "starlight"))

/-- Property of the theme options object. -/
def themeField? (key : String) : Option JsVal :=
  themeOptions?.bind (fun o => o.get? key)

/-- The `locales` object. -/
def locales? : Option JsVal :=
  themeField? "locales"

/-- Keys of the locale table. -/
def localeKeys : List String :=
  (locales?.map keys).getD []

/-- The entry the locale table holds under a key. -/
def localeEntry? (key : String) : Option JsVal :=
  locales?.bind (fun t => t.get? key)

/-- The locale table as rows of key, label and language tag. -/
def localeTable : List (String × Option String × Option String) :=
  localeKeys.map (fun k =>
    (k, (localeEntry? k).bind (fun e => e.strField? "label"),
        (localeEntry? k).bind (fun e => e.strField? "lang")))

/-- The entries of the locale table, in key order. -/
def localeEntries : List JsVal :=
  localeKeys.filterMap localeEntry?

/-- The value of `defaultLocale`. -/
def defaultLocale? : Option String :=
  (themeField? "defaultLocale").bind asStr?

/-- The top-level entries of the `sidebar` array. -/
def topLevelGroups : List JsVal :=
  ((themeField? "sidebar").bind asArr?).getD []

/-- Every sidebar group, at every nesting depth, parents before children. -/
def sidebarGroups : List JsVal :=
  ((themeField? "sidebar").map groupsIn).getD []

/-- The label of an entry. -/
def labelOf? (v : JsVal) : Option String :=
  v.strField? "label"

/-- The explicit item list of a group. -/
def itemsOf? (v : JsVal) : Option (List JsVal) :=
  v.arrField? "items"

/-- The directory path of the `autogenerate` directive of a group. -/
def directoryOf? (v : JsVal) : Option String :=
  (v.get? "autogenerate").bind (fun a => a.strField? "directory")

/-- The items of the top-level group labelled "Guides". -/
def guidesItems : List JsVal :=
  ((topLevelGroups.find? (fun g => labelOf? g == some "Guides")).bind itemsOf?).getD []

/-- The entries of the `social` array. -/
def socialLinks : List JsVal :=
  ((themeField? "social").bind asArr?).getD []

/-- The canonical site URL. -/
def siteUrl? : Option String :=
  (configField? "site").bind asStr?

/-- Directory paths of all auto-generation directives of the sidebar. -/
def allDirectories : List String :=
  sidebarGroups.filterMap directoryOf?

/-! ## URL shape -/

/-- The scheme every URL of the configuration is written with. -/
def httpsScheme : List Char :=
  "https://".data

/-- The host of an absolute https URL: the characters after the scheme up to
the first path, query or fragment delimiter. -/
def httpsHost? (u : String) : Option (List Char) :=
  if httpsScheme <+: u.data then
    some ((u.data.drop httpsScheme.length).takeWhile (fun c => c != '/' && c != '?' && c != '#'))
  else
    none

/-- Whitespace in the widest sense a URL check uses: every code point with the
Unicode property White_Space (U+0009 to U+000D, U+0020, U+0085, U+00A0,
U+1680, U+2000 to U+200A, U+2028, U+2029, U+202F, U+205F, U+3000) and the
byte order mark U+FEFF, which JavaScript also counts as white space. -/
def isSpaceChar (c : Char) : Bool :=
  (9 ≤ c.toNat && c.toNat ≤ 13) || c.toNat == 0x20 || c.toNat == 0x85 || c.toNat == 0xA0 ||
  c.toNat == 0x1680 || (0x2000 ≤ c.toNat && c.toNat ≤ 0x200A) || c.toNat == 0x2028 ||
  c.toNat == 0x2029 || c.toNat == 0x202F || c.toNat == 0x205F || c.toNat == 0x3000 ||
  c.toNat == 0xFEFF

/-- The punctuation a URL may be written with besides letters and digits: the
unreserved marks, the reserved delimiters and the percent sign. -/
def urlPunctuation : List Char :=
  "-._~:/?#[]@!$&'()*+,;=%".data

/-- The characters a URL may be written with: ASCII letters, ASCII digits and
`urlPunctuation`; no control character, no space and nothing outside ASCII. -/
def isUrlChar (c : Char) : Bool :=
  (0x41 ≤ c.toNat && c.toNat ≤ 0x5A) || (0x61 ≤ c.toNat && c.toNat ≤ 0x7A) ||
  (0x30 ≤ c.toNat && c.toNat ≤ 0x39) || urlPunctuation.contains c

/-- An absolute https URL: the scheme, then a non-empty host, no whitespace
anywhere, and only URL characters throughout. -/
def IsHttpsUrl (u : String) : Prop :=
  (∃ h ∈ httpsHost? u, h ≠ []) ∧ (∀ c ∈ u.data, isSpaceChar c = false) ∧
    ∀ c ∈ u.data, isUrlChar c = true

instance : DecidablePred IsHttpsUrl :=
  fun u => by unfold IsHttpsUrl; infer_instance

/-- The icon, label and href of a social link. -/
def socialTriple (l : JsVal) : Option String × Option String × Option String :=
  (l.strField? "icon", l.strField? "label", l.strField? "href")

/-- A sidebar group populated by an explicit item list only. -/
def ExplicitGroup (g : JsVal) : Prop :=
  (itemsOf? g).isSome = true ∧ (g.get? "autogenerate").isNone = true

/-- A sidebar group populated by an auto-generation directive only, the
directive carrying a directory path. -/
def AutogeneratedGroup (g : JsVal) : Prop :=
  (g.get? "items").isNone = true ∧ (directoryOf? g).isSome = true

instance : DecidablePred ExplicitGroup :=
  fun g => by unfold ExplicitGroup; infer_instance

instance : DecidablePred AutogeneratedGroup :=
  fun g => by unfold AutogeneratedGroup; infer_instance

/-! ## Facts about the character classes -/

/-- The four characters the library calls whitespace are space characters. -/
theorem isSpaceChar_of_isWhitespace (c : Char) (h : c.isWhitespace = true) :
    isSpaceChar c = true := by
  simp only [Char.isWhitespace, Bool.or_eq_true, decide_eq_true_eq] at h
  rcases h with ((rfl | rfl) | rfl) | rfl <;> decide

/-- A URL character is never a space character. -/
theorem not_isSpaceChar_of_isUrlChar (c : Char) (h : isUrlChar c = true) :
    isSpaceChar c = false := by
  have hp : ∀ d ∈ urlPunctuation, isSpaceChar d = false := by decide
  simp only [isUrlChar, Bool.or_eq_true, Bool.and_eq_true, decide_eq_true_eq] at h
  rcases h with ((h | h) | h) | h
  · simp [isSpaceChar]; omega
  · simp [isSpaceChar]; omega
  · simp [isSpaceChar]; omega
  · exact hp c (by simpa using h)

/-! ## The claims -/

/-- C1: the locale table passed to the theme is an object with exactly one
entry; its only key is "root", which maps to label "English" and language tag
"en", and no other key is bound. -/
theorem locales_exactly_root :
    locales?.map isObj = some true ∧
    localeKeys = ["root"] ∧
    localeTable = [("root", some "English", some "en")] ∧
    ∀ k : String, k ≠ "root" → (localeEntry? k).isNone = true := by
  refine ⟨by decide, by decide, by decide, ?_⟩
  intro k hk
  have hne : ("root" == k) = false := by
    simpa using fun h : "root" = k => hk h.symm
  simp [localeEntry?, locales?, themeField?, themeOptions?, integrations?, configField?,
    config?, exportDefault, defineConfig, starlight, callArg?, get?, asArr?, hne]

/-- C2: the top-level group labels of the sidebar, read in order, are "Getting
Started", "Guides", "Architecture", "Reference", and the item labels inside
"Guides", read in order, are "Development", "Deployment", "Hardware Security",
"Secrets Management". -/
theorem sidebar_labels_in_order :
    topLevelGroups.map labelOf? =
      [some "Getting Started", some "Guides", some "Architecture", some "Reference"] ∧
    guidesItems.map labelOf? =
      [some "Development", some "Deployment", some "Hardware Security",
        some "Secrets Management"] := by
  decide

/-- C3: the sidebar has four top-level groups and four groups nested under
"Guides", eight in all, and each of them has a label and exactly one population
form: an explicit item list without a directive, or a directive with a
directory path without an item list. -/
theorem sidebar_groups_one_population_form :
    topLevelGroups.length = 4 ∧ guidesItems.length = 4 ∧
    sidebarGroups.map labelOf? =
      [some "Getting Started", some "Guides", some "Development", some "Deployment",
        some "Hardware Security", some "Secrets Management", some "Architecture",
        some "Reference"] ∧
    ∀ g ∈ sidebarGroups,
      (labelOf? g).isSome = true ∧
      (ExplicitGroup g ∨ AutogeneratedGroup g) ∧
      ¬ (ExplicitGroup g ∧ AutogeneratedGroup g) := by
  decide

/-- C4: every label of the configuration is a non-empty string: the label of
each of the eight sidebar groups, of the one locale entry and of the one social
link. -/
theorem labels_nonempty :
    (sidebarGroups.length = 8 ∧ ∀ g ∈ sidebarGroups, ∃ s ∈ labelOf? g, s ≠ "") ∧
    (localeEntries.length = 1 ∧ ∀ e ∈ localeEntries, ∃ s ∈ labelOf? e, s ≠ "") ∧
    (socialLinks.length = 1 ∧ ∀ l ∈ socialLinks, ∃ s ∈ labelOf? l, s ≠ "") := by
  decide

/-- C5: the site URL and the href of every social link are absolute https
URLs: each is the scheme "https://" followed by a non-empty host (after which
the site URL ends and the href goes on with the path "/wikigen"), contains no
whitespace of any kind and is written with URL characters only. -/
theorem urls_are_https :
    (∃ u ∈ siteUrl?, IsHttpsUrl u ∧ httpsHost? u = some "g-structure.github.io".data ∧
      u.data = httpsScheme ++ "g-structure.github.io".data) ∧
    socialLinks.length = 1 ∧
    ∀ l ∈ socialLinks,
      ∃ u ∈ l.strField? "href", IsHttpsUrl u ∧ httpsHost? u = some "github.com".data ∧
        u.data = httpsScheme ++ "github.com".data ++ "/wikigen".data := by
  decide

/-- C6: the social links are an array in which every entry has all three of
icon, label and href, and nothing else; the array has exactly one entry, with
icon "github", label "GitHub" and href "https://github.com/wikigen". -/
theorem social_links_complete :
    ((themeField? "social").bind asArr?).isSome = true ∧
    (∀ l ∈ socialLinks,
      (l.strField? "icon").isSome = true ∧ (l.strField? "label").isSome = true ∧
      (l.strField? "href").isSome = true ∧ l.keys = ["icon", "label", "href"]) ∧
    socialLinks.map socialTriple =
      [(some "github", some "GitHub", some "https://github.com/wikigen")] := by
  decide

/-- C7: the exported object has the top-level keys output (equal to "static"),
site, base and integrations, the latter holding exactly one integration, the
theme; the theme options have a title, a description, a locale table, a
sidebar, the flag pagefind set to true, a list of stylesheet paths and a list
of social links. -/
theorem exported_object_shape :
    (configField? "output").bind asStr? = some "static" ∧
    siteUrl? = some "https://g-structure.github.io" ∧
    (configField? "base").bind asStr? = some "/config" ∧
    integrations?.map (fun l => l.map callee?) = some [some "starlight"] ∧
    themeOptions?.map isObj = some true ∧
    (themeField? "title").bind asStr? = some "WikiGen's Config Documentation" ∧
    (themeField? "description").bind asStr? =
      some "Documentation for WikiGen's Nix configuration - modular multi-platform setup" ∧
    locales?.map isObj = some true ∧
    ((themeField? "sidebar").bind asArr?).map List.length = some 4 ∧
    (themeField? "pagefind").bind asBool? = some true ∧
    ((themeField? "customCss").bind asArr?).map (fun l => l.map asStr?) =
      some [some "./src/styles/custom.css"] ∧
    ((themeField? "social").bind asArr?).map List.length = some 1 := by
  decide

/-- C9: the default locale is "root" and it is a key of the locale table, so
the default locale has an entry with a label and a language tag. -/
theorem default_locale_is_declared :
    defaultLocale? = some "root" ∧
    ∀ k ∈ defaultLocale?,
      k ∈ localeKeys ∧
      ∃ e ∈ localeEntry? k, (e.strField? "label").isSome = true ∧
        (e.strField? "lang").isSome = true := by
  decide

/-- C10: the seven directory paths of the sidebar are pairwise distinct, each
is non-empty with no leading and no trailing "/", the directory of every group
nested under "Guides" starts with "guides/" and that of no top-level group
does, and sibling groups have pairwise distinct labels. -/
theorem sidebar_directories_well_formed :
    allDirectories.length = 7 ∧
    allDirectories.Nodup ∧
    (∀ d ∈ allDirectories,
      d ≠ "" ∧ ¬ ("/".data <+: d.data) ∧ ¬ ("/".data <:+ d.data)) ∧
    (guidesItems.length = 4 ∧
      ∀ g ∈ guidesItems, ∃ d ∈ directoryOf? g, "guides/".data <+: d.data) ∧
    (∀ g ∈ topLevelGroups, ∀ d ∈ directoryOf? g, ¬ ("guides/".data <+: d.data)) ∧
    (topLevelGroups.map labelOf?).Nodup ∧
    (∀ g ∈ sidebarGroups, ∀ xs ∈ itemsOf? g, (xs.map labelOf?).Nodup) := by
  decide

end AstroConfig
